import Mathlib

/-!
# Verification of `src/driver.py` (inventory-hunter fetch backends)

Shallow embedding of the fetch-backend module: the uniform result type
`HttpGetResponse`, the four backend `get` implementations, the
`DriverRepo`/`init_drivers` composition, and the wire protocol spoken by
`LeanAndMeanDriver` to the external fetch service. The protobuf messages
(`worker/worker_pb2`) are not part of the repository sources, so their
serialization is modelled from the specification (§6) as a field-tagged
varint encoding with the schema given there.
-/

namespace Driver

/-- A target URL with a caller-assigned nickname (spec §3 Target; the
`url` objects passed to the drivers expose `str(url)` and `url.nickname`). -/
structure Target where
  url : String
  nickname : String
  deriving DecidableEq

/-- driver.py lines 21-25: the uniform result type of every backend.
The `text` and `url` fields keep whatever type the backend passes
(Python is dynamically typed: `LeanAndMeanDriver` passes raw bytes as
`text` while the others pass strings), and `status_code` comes from
`kwargs.get` with default `None`, hence an `Option`. -/
structure HttpGetResponse (α β : Type) where
  text : α
  url : β
  status_code : Option Nat
  deriving DecidableEq

/-- Modelled from the spec: driver.py imports `Request` from the
`worker/worker_pb2` module, whose definition is not in the repository.
Spec §6 gives the schema `RpcRequest { id: int64, url: string, timeout: int32 }`.
The url is held as its UTF-8 bytes; every integer value the client
produces (id 1337, timeout at least 15) is nonnegative. -/
structure Request where
  id : Nat
  url : List Nat
  timeout : Nat
  deriving DecidableEq

/-- Modelled from the spec: §6 schema
`RpcResponse { id: int64, status_code: int32, data: bytes }`, from the
missing `worker/worker_pb2` module. -/
structure Response where
  id : Nat
  status_code : Nat
  data : List Nat
  deriving DecidableEq

/-- Modelled from the spec: base-128 varint encoding, the variable-length
integer encoding used by the field-tagged binary serialization of §6
(protocol buffers): low seven bits per byte, continuation bit 0x80.
The first argument is fuel for termination only; the recursion divides by
128 each step, so starting fuel `n` is always enough and the fuel-exhausted
branch is unreachable. -/
def varintEncodeAux : Nat → Nat → List Nat
  | 0, n => [n]
  | fuel + 1, n => if n < 128 then [n] else (n % 128 + 128) :: varintEncodeAux fuel (n / 128)

/-- Modelled from the spec: varint encoding of a nonnegative integer. -/
def varintEncode (n : Nat) : List Nat := varintEncodeAux n n

/-- Modelled from the spec: varint decoding; returns the decoded value and
the remaining bytes, or `none` when the input ends inside a varint. -/
def varintDecode : List Nat → Option (Nat × List Nat)
  | [] => none
  | b :: rest =>
    if b < 128 then some (b, rest)
    else
      match varintDecode rest with
      | none => none
      | some (v, rest2) => some (b % 128 + 128 * v, rest2)

/-- Modelled from the spec: serialization of `RpcRequest` from the missing
`worker_pb2` module, per the §6 schema: field-tagged records with
id = field 1 (varint, tag byte 8), url = field 2 (length-delimited,
tag byte 18), timeout = field 3 (varint, tag byte 24). Default-valued
fields (zero or empty) are omitted on the wire, the behaviour required by
the backward/forward-compatible encodings §6 allows. -/
def serializeRequest (r : Request) : List Nat :=
  (if r.id = 0 then [] else 8 :: varintEncode r.id) ++
  (if r.url = [] then [] else 18 :: (varintEncode r.url.length ++ r.url)) ++
  (if r.timeout = 0 then [] else 24 :: varintEncode r.timeout)

/-- Modelled from the spec: serialization of `RpcResponse` (the fetch
service side of §6): id = field 1 (varint, tag 8), status_code = field 2
(varint, tag 16), data = field 3 (length-delimited, tag 26); default
fields omitted. -/
def serializeResponse (r : Response) : List Nat :=
  (if r.id = 0 then [] else 8 :: varintEncode r.id) ++
  (if r.status_code = 0 then [] else 16 :: varintEncode r.status_code) ++
  (if r.data = [] then [] else 26 :: (varintEncode r.data.length ++ r.data))

/-- The all-default `RpcRequest` message. -/
def defaultRequest : Request := ⟨0, [], 0⟩

/-- The all-default `RpcResponse` message. -/
def defaultResponse : Response := ⟨0, 0, []⟩

/-- Modelled from the spec: field-by-field parsing of `RpcRequest` bytes
(the `ParseFromString` of the missing `worker_pb2` module). Parsing starts
from the all-default message and overwrites a field whenever one of its
records is read, so an empty byte string parses successfully to the
default message — exactly what makes the §6 encoding backward/forward
compatible. Unknown fields of the two wire types in use are skipped.
The fuel argument only serves termination; each record consumes at least
one byte, so `length bytes` fuel is always enough. -/
def parseRequestFields : Nat → Request → List Nat → Option Request
  | _, acc, [] => some acc
  | 0, _, _ :: _ => none
  | fuel + 1, acc, t :: rest =>
    if t % 8 = 0 then
      match varintDecode rest with
      | none => none
      | some (v, rest2) =>
        parseRequestFields fuel
          (if t / 8 = 1 then { acc with id := v }
           else if t / 8 = 3 then { acc with timeout := v } else acc) rest2
    else if t % 8 = 2 then
      match varintDecode rest with
      | none => none
      | some (len, rest2) =>
        if len ≤ rest2.length then
          parseRequestFields fuel
            (if t / 8 = 2 then { acc with url := rest2.take len } else acc)
            (rest2.drop len)
        else none
    else none

/-- Modelled from the spec: deserialization of `RpcRequest` bytes. -/
def parseRequest (bytes : List Nat) : Option Request :=
  parseRequestFields bytes.length defaultRequest bytes

/-- Modelled from the spec: field-by-field parsing of `RpcResponse` bytes,
mirroring `parseRequestFields` for the response schema of §6. -/
def parseResponseFields : Nat → Response → List Nat → Option Response
  | _, acc, [] => some acc
  | 0, _, _ :: _ => none
  | fuel + 1, acc, t :: rest =>
    if t % 8 = 0 then
      match varintDecode rest with
      | none => none
      | some (v, rest2) =>
        parseResponseFields fuel
          (if t / 8 = 1 then { acc with id := v }
           else if t / 8 = 2 then { acc with status_code := v } else acc) rest2
    else if t % 8 = 2 then
      match varintDecode rest with
      | none => none
      | some (len, rest2) =>
        if len ≤ rest2.length then
          parseResponseFields fuel
            (if t / 8 = 3 then { acc with data := rest2.take len } else acc)
            (rest2.drop len)
        else none
    else none

/-- Modelled from the spec: deserialization of `RpcResponse` bytes
(`Response.ParseFromString` on the bytes read to end-of-stream). -/
def parseResponse (bytes : List Nat) : Option Response :=
  parseResponseFields bytes.length defaultResponse bytes

/-- The UTF-8 bytes of a string, as `str(url)` is handed to the protobuf
string field (`request.url = str(url)`, driver.py line 131). -/
def strBytes (s : String) : List Nat :=
  (s.data.flatMap (fun c => String.utf8EncodeChar c)).map (fun b => b.toNat)

/-- driver.py lines 79-91: `SeleniumDriver.get`. The page is fetched by the
headless browser (its `page_source` is the `page_source` argument); a
screenshot write is then attempted inside try/except — `screenshot_fails`
says whether that write raises — and the warning written by the except
branch is returned as the second component (the log). The function is
total: no exception escapes the artifact block, the returned response is
the page source with the target as url, and no status code is ever
supplied. -/
def seleniumGet (screenshot_fails : Bool) (page_source : String) (url : Target) :
    HttpGetResponse String Target × List String :=
  (⟨page_source, url, none⟩,
   if screenshot_fails then ["unable to save screenshot of webpage"] else [])

/-- driver.py lines 101-111: `PuppeteerDriver.get` runs the node scrape
subprocess (which writes the html and png artifacts itself); on nonzero
returncode it logs a warning and falls off the end of the function, so
Python returns `None` — modelled as `none`. On returncode 0 it returns the
content read back from the html file. -/
def puppeteerGet (returncode : Int) (html_content : String) (url : Target) :
    Option (HttpGetResponse String Target) :=
  if returncode ≠ 0 then none
  else some ⟨html_content, url, none⟩

/-- driver.py lines 114-120: the response object the `requests` library
hands back to `RequestsDriver.get` — `url` is the final URL after
redirects. A non-2xx status only triggers a debug log (lines 118-119). -/
structure RequestsResponse where
  text : String
  url : String
  status_code : Nat
  deriving DecidableEq

/-- driver.py line 120: `RequestsDriver.get` wraps the library response,
always supplying the status code. -/
def requestsGet (r : RequestsResponse) : HttpGetResponse String String :=
  ⟨r.text, r.url, some r.status_code⟩

/-- driver.py lines 129-132: the request `LeanAndMeanDriver.get_impl`
populates — constant id 1337, the stringified target URL, and the
configured timeout. -/
def leanAndMeanBuildRequest (timeout : Nat) (url_bytes : List Nat) : Request :=
  { id := 1337, url := url_bytes, timeout := timeout }

/-- driver.py line 143: the response mapping of `LeanAndMeanDriver` —
body is `response.data` (raw bytes), url is the requested target, and
`status_code` is always supplied from `response.status_code`. -/
def mkLeanResult (resp : Response) (url : Target) : HttpGetResponse (List Nat) Target :=
  ⟨resp.data, url, some resp.status_code⟩

/-- driver.py lines 137-143: the receive half of `get_impl` — the bytes
read to end-of-stream are parsed as one `RpcResponse` (a parse failure
raises, modelled by `none`) and mapped to the returned response. -/
def leanAndMeanReceive (url : Target) (received : List Nat) :
    Option (HttpGetResponse (List Nat) Target) :=
  (parseResponse received).map (fun resp => mkLeanResult resp url)

/-- The wire-level actions `get_impl` performs on the connection, in
driver.py source order. -/
inductive WireEvent where
  | openConnection : WireEvent
  | write : List Nat → WireEvent
  | writeEof : WireEvent
  | drain : WireEvent
  | readToEof : WireEvent
  | closeConnection : WireEvent
  deriving DecidableEq, BEq

/-- Whether a wire event writes bytes to the connection. -/
def isWrite : WireEvent → Bool
  | .write _ => true
  | _ => false

/-- driver.py lines 128-141: the straight-line sequence of connection
actions performed by `LeanAndMeanDriver.get_impl`: open, write the one
serialized request, half-close the write side (`write_eof`), flush
(`drain`), read to end-of-stream, close. -/
def leanWireTrace (timeout : Nat) (url : Target) : List WireEvent :=
  [WireEvent.openConnection,
   WireEvent.write (serializeRequest (leanAndMeanBuildRequest timeout (strBytes url.url))),
   WireEvent.writeEof,
   WireEvent.drain,
   WireEvent.readToEof,
   WireEvent.closeConnection]

/-- driver.py lines 146-153: `DriverRepo` constructs all four backends
with one shared timeout value. -/
structure DriverRepo where
  requests_timeout : Int
  selenium_timeout : Int
  puppeteer_timeout : Int
  lean_and_mean_timeout : Int
  deriving DecidableEq

/-- driver.py lines 146-153: every backend receives the same timeout. -/
def mkDriverRepo (timeout : Int) : DriverRepo := ⟨timeout, timeout, timeout, timeout⟩

/-- driver.py lines 156-158: `init_drivers` computes
`timeout = int(max(config.refresh_interval, 15))`. The refresh interval is
an integer (spec §3, BackendConfig), and Python int() is the identity on
integers. -/
def init_drivers_timeout (refresh_interval : Int) : Int := max refresh_interval 15

/-- driver.py line 158: `init_drivers` hands the computed timeout to the repo. -/
def init_drivers (refresh_interval : Int) : DriverRepo :=
  mkDriverRepo (init_drivers_timeout refresh_interval)

/-- A concrete target used to instantiate theorems on closed inputs. -/
def exampleTarget : Target := ⟨"http://example.test", "example"⟩

/-- C1: the claim states every backend either returns a response with a
body or fails explicitly, never silently returning None. The code violates
this: when the node scrape subprocess exits with nonzero returncode,
`PuppeteerDriver.get` logs a warning and falls off the end of the
function, silently returning None — contradicting its own declared return
type `-> HttpGetResponse`. This theorem evaluates the embedded
`PuppeteerDriver.get` at the failing input (returncode 1). -/
theorem puppeteer_failure_returns_none :
    puppeteerGet 1 ("irrelevant") exampleTarget = none := by decide

/-- C2 counterexample: the claim states that a service closing without
writing bytes makes the lean backend raise a ProtocolError. In the code,
`Response.ParseFromString` on the empty byte string succeeds with the
all-default message (the §6 encoding treats every field as optional), so
`get_impl` returns an HttpGetResponse with empty body and status code 0 —
an empty success, not a failure. -/
theorem lean_empty_read_empty_success :
    leanAndMeanReceive exampleTarget [] = some ⟨[], exampleTarget, some 0⟩ := rfl

/-- C2 amended: if the read-to-EOF yields zero bytes, parsing succeeds
with the all-default response and `LeanAndMeanDriver` returns an
HttpGetResponse with empty body, status code 0 and the requested target as
url; no error is raised, so an empty-success state does exist. -/
theorem lean_empty_read_default_response (url : Target) :
    parseResponse [] = some defaultResponse ∧
    leanAndMeanReceive url [] = some ⟨[], url, some 0⟩ :=
  ⟨rfl, rfl⟩

/-- C3: the result built by `LeanAndMeanDriver` does not depend on the id
field of the response — two responses agreeing on status code and data
(hence differing at most in id) give equal results; the id is only logged,
never checked. -/
theorem lean_result_ignores_response_id (r1 r2 : Response) (url : Target)
    (hs : r1.status_code = r2.status_code) (hd : r1.data = r2.data) :
    mkLeanResult r1 url = mkLeanResult r2 url := by
  simp [mkLeanResult, hs, hd]

/-- C3 witness: two concrete responses differing only in id (1337 versus 0)
produce the same result. -/
theorem lean_result_ignores_response_id_witness :
    mkLeanResult ⟨1337, 200, [104]⟩ exampleTarget =
      mkLeanResult ⟨0, 200, [104]⟩ exampleTarget :=
  lean_result_ignores_response_id ⟨1337, 200, [104]⟩ ⟨0, 200, [104]⟩ exampleTarget rfl rfl

/-- C4: `init_drivers` computes the shared timeout as
max(refresh_interval, 15), hands the same value to all four backends, and
in particular refresh_interval 5 gives timeout 15 while refresh_interval
30 gives timeout 30. -/
theorem init_drivers_timeout_is_max (refresh_interval : Int) :
    (init_drivers refresh_interval).requests_timeout = max refresh_interval 15 ∧
    (init_drivers refresh_interval).selenium_timeout = max refresh_interval 15 ∧
    (init_drivers refresh_interval).puppeteer_timeout = max refresh_interval 15 ∧
    (init_drivers refresh_interval).lean_and_mean_timeout = max refresh_interval 15 ∧
    init_drivers 5 = mkDriverRepo 15 ∧
    init_drivers 30 = mkDriverRepo 30 :=
  ⟨rfl, rfl, rfl, rfl, by decide, by decide⟩

/-- C5: whenever the bytes read from the service parse as a response, the
lean backend returns a result whose body is exactly `response.data`, whose
status code is exactly `response.status_code`, and whose url is the
requested target. -/
theorem lean_result_maps_fields (received : List Nat) (resp : Response) (url : Target)
    (h : parseResponse received = some resp) :
    leanAndMeanReceive url received = some (mkLeanResult resp url) ∧
    (mkLeanResult resp url).text = resp.data ∧
    (mkLeanResult resp url).status_code = some resp.status_code ∧
    (mkLeanResult resp url).url = url := by
  refine ⟨?_, rfl, rfl, rfl⟩
  simp [leanAndMeanReceive, h]

/-- C5 witness: a concrete serialized response with id 7, status 200 and
two data bytes maps to the expected result. -/
theorem lean_result_maps_fields_witness :
    leanAndMeanReceive exampleTarget (serializeResponse ⟨7, 200, [104, 105]⟩) =
      some (mkLeanResult ⟨7, 200, [104, 105]⟩ exampleTarget) :=
  (lean_result_maps_fields (serializeResponse ⟨7, 200, [104, 105]⟩) ⟨7, 200, [104, 105]⟩
    exampleTarget (by decide)).1

/-- C6: serializing the request with id 1337, url "http://example.test"
(as its UTF-8 bytes) and timeout 15, then deserializing the bytes, yields
back exactly the original request. -/
theorem request_roundtrip_concrete :
    parseRequest (serializeRequest ⟨1337, strBytes ("http://example.test"), 15⟩) =
      some ⟨1337, strBytes ("http://example.test"), 15⟩ := by decide

/-- C7: the wire exchange of `get_impl` is ordered: the trace starts by
opening the connection and ends by closing it; before the half-close there
is exactly one write, carrying the one serialized request, and no read;
after the half-close there is no write and the read-to-EOF occurs; the
half-close happens exactly once. -/
theorem lean_wire_order (timeout : Nat) (url : Target) :
    ∃ pre post,
      leanWireTrace timeout url = pre ++ WireEvent.writeEof :: post ∧
      (leanWireTrace timeout url).head? = some WireEvent.openConnection ∧
      (leanWireTrace timeout url).getLast? = some WireEvent.closeConnection ∧
      pre.filter isWrite =
        [WireEvent.write (serializeRequest (leanAndMeanBuildRequest timeout (strBytes url.url)))] ∧
      post.filter isWrite = [] ∧
      post.contains WireEvent.readToEof = true ∧
      pre.contains WireEvent.readToEof = false ∧
      (leanWireTrace timeout url).count WireEvent.writeEof = 1 := by
  refine ⟨[WireEvent.openConnection,
           WireEvent.write (serializeRequest (leanAndMeanBuildRequest timeout (strBytes url.url)))],
          [WireEvent.drain, WireEvent.readToEof, WireEvent.closeConnection],
          rfl, rfl, rfl, ?_, ?_, rfl, rfl, rfl⟩ <;> simp [isWrite]

/-- C8: a failure of the diagnostic screenshot write in
`SeleniumDriver.get` is caught and logged, never escalated: the call still
returns the page-source response, identical to the no-failure run (the
backend whose artifacts are written inside driver.py; the puppeteer
artifacts are written by the external node script, a black box). -/
theorem selenium_artifact_failure_no_abort (screenshot_fails : Bool)
    (page_source : String) (url : Target) :
    (seleniumGet screenshot_fails page_source url).1 = ⟨page_source, url, none⟩ ∧
    (seleniumGet screenshot_fails page_source url).1 = (seleniumGet false page_source url).1 ∧
    (seleniumGet true page_source url).2 = ["unable to save screenshot of webpage"] :=
  ⟨rfl, rfl, rfl⟩

/-- C9: every request the lean backend sends carries id 1337 and the
configured timeout, for any target URL; moreover the only write on the
wire is that single serialized request. -/
theorem lean_request_constant_id_and_timeout (timeout : Nat) (url : Target) :
    (leanAndMeanBuildRequest timeout (strBytes url.url)).id = 1337 ∧
    (leanAndMeanBuildRequest timeout (strBytes url.url)).timeout = timeout ∧
    (leanWireTrace timeout url).filter isWrite =
      [WireEvent.write (serializeRequest (leanAndMeanBuildRequest timeout (strBytes url.url)))] := by
  refine ⟨rfl, rfl, ?_⟩
  simp [leanWireTrace, isWrite]

/-- C10: Selenium and Puppeteer responses never carry a status code (the
constructor default `none`), while the requests backend and the lean
backend always supply one. -/
theorem browser_backends_status_none (screenshot_fails : Bool) (page_source html : String)
    (url : Target) (returncode : Int) (r : RequestsResponse) (resp : Response) :
    (seleniumGet screenshot_fails page_source url).1.status_code = none ∧
    (puppeteerGet returncode html url).map HttpGetResponse.status_code =
      (if returncode = 0 then some none else none) ∧
    (requestsGet r).status_code = some r.status_code ∧
    (mkLeanResult resp url).status_code = some resp.status_code := by
  refine ⟨rfl, ?_, rfl, rfl⟩
  by_cases h : returncode = 0 <;> simp [puppeteerGet, h]

end Driver

